import Mathlib

/-!
# Verification of the ANP⇄MCP bridge (`simple_anp_mcp_service.py`)

Shallow embedding of the core translation engine `AnpMcpBridge`:
JSON-ish values, the DID→OAuth registry, the session store, the
intent→method and parameter-key mapping tables with their fallback rules,
and the two translation operations `anp_to_mcp` / `mcp_to_anp`.

Python dictionaries are modelled as association lists with
overwrite-on-insert semantics; Python exceptions raised inside the
translation (attribute errors on non-string/non-dict values, hashing
errors on unhashable keys) are modelled by an inner computation in
`Except String`, which the outer function catches exactly as the
source's `try`/`except` does, producing a `CONVERSION_ERROR` result.
-/

/-- JSON-like values, the payloads the bridge manipulates. -/
inductive Json where
  | null : Json
  | bool : Bool → Json
  | num : Int → Json
  | str : String → Json
  | arr : List Json → Json
  | obj : List (String × Json) → Json

/-- A Python dict with string keys, as the bridge receives and returns. -/
abbrev Dict := List (String × Json)

/-- Dictionary lookup (`d.get(k)` / `d[k]`): first binding for the key wins. -/
def dget {α : Type} : List (String × α) → String → Option α
  | [], _ => none
  | (k', v) :: rest, k => if k = k' then some v else dget rest k

/-- Key-membership test (`k in d`). -/
def dcontains {α : Type} (d : List (String × α)) (k : String) : Bool :=
  (dget d k).isSome

/-- Remove every binding of a key (`del d[k]`). -/
def derase {α : Type} : List (String × α) → String → List (String × α)
  | [], _ => []
  | (k', v) :: rest, k => if k = k' then derase rest k else (k', v) :: derase rest k

/-- Dictionary update (`d[k] = v`): overwrites any previous binding. -/
def dinsert {α : Type} (d : List (String × α)) (k : String) (v : α) : List (String × α) :=
  (k, v) :: derase d k

/-- Python truthiness test, negated (`not x`) for JSON-like values:
`None`, `False`, `0`, `""`, `[]` and `{}` are falsy. -/
def Json.falsy : Json → Bool
  | .null => true
  | .bool b => !b
  | .num n => n == 0
  | .str s => s == ""
  | .arr xs => xs.isEmpty
  | .obj fs => fs.isEmpty

/-- Helper for `pySplit`: scan the characters, `acc` holding the current
token reversed; whitespace ends a token, empty tokens are dropped. -/
def pySplitAux : List Char → List Char → List String
  | [], acc => if acc.isEmpty then [] else [String.mk acc.reverse]
  | c :: cs, acc =>
    if c.isWhitespace then
      if acc.isEmpty then pySplitAux cs []
      else String.mk acc.reverse :: pySplitAux cs []
    else pySplitAux cs (c :: acc)

/-- Python `str.split()` with no separator: split on whitespace runs,
dropping empty tokens. -/
def pySplit (s : String) : List String :=
  pySplitAux s.data []

/-- Python `str.lower()` (ASCII model; identity on CJK characters, as in Python). -/
def pyLower (s : String) : String :=
  String.mk (s.data.map Char.toLower)

/-- Python `str.capitalize()`: first character upper-cased, the REST
LOWER-CASED (this is Python's documented behaviour). -/
def pyCapitalize (s : String) : String :=
  match s.data with
  | [] => ""
  | c :: cs => String.mk (c.toUpper :: cs.map Char.toLower)

/-- The static intent→method table (`self.intent_method_map`). -/
def intent_method_map : List (String × String) :=
  [("查询天气", "getWeather"),
   ("获取天气预报", "getWeatherForecast"),
   ("获取天气预警", "getWeatherAlert"),
   ("查询用户信息", "getUserInfo"),
   ("更新用户信息", "updateUserInfo"),
   ("查询订单", "getOrderInfo"),
   ("创建订单", "createOrder"),
   ("处理支付", "processPayment")]

/-- Model of `AnpMcpBridge._default_method_conversion`: fallback intent→method rule. -/
def default_method_conversion (intent : String) : String :=
  match pySplit intent with
  | [] => "query"
  | w :: rest => pyLower w ++ String.join (rest.map pyCapitalize)

/-- Model of `AnpMcpBridge._convert_intent_to_method` restricted to string intents:
table lookup with the fallback rule on a miss. -/
def intentToMethodStr (s : String) : String :=
  (dget intent_method_map s).getD (default_method_conversion s)

/-- Model of `AnpMcpBridge._convert_intent_to_method` on an arbitrary value.
The default argument of `dict.get` is evaluated eagerly, so a non-string
intent raises `AttributeError` inside `_default_method_conversion`
(`intent.split()`), modelled as `Except.error`. -/
def convert_intent_to_method : Json → Except String String
  | .str s => .ok (intentToMethodStr s)
  | .null => .error "'NoneType' object has no attribute 'split'"
  | .bool _ => .error "'bool' object has no attribute 'split'"
  | .num _ => .error "'int' object has no attribute 'split'"
  | .arr _ => .error "'list' object has no attribute 'split'"
  | .obj _ => .error "'dict' object has no attribute 'split'"

/-- The static parameter-key rename table (`param_key_map`). -/
def param_key_map : List (String × String) :=
  [("user_id", "userId"),
   ("order_id", "orderId"),
   ("page_size", "pageSize"),
   ("page_num", "pageNum"),
   ("city", "cityName"),
   ("date", "queryDate")]

/-- Model of `AnpMcpBridge._convert_anp_params_to_mcp`: rename known keys, pass
unknown keys and all values through; later duplicates overwrite. -/
def convert_anp_params_to_mcp (params : Dict) : Dict :=
  params.foldl (fun conv kv => dinsert conv ((dget param_key_map kv.1).getD kv.1) kv.2) []

/-- Model of `AnpMcpBridge._convert_mcp_result_to_anp`: identity pass-through. -/
def convert_mcp_result_to_anp (result : Json) : Json :=
  result

/-- A session entry, as stored by `anp_to_mcp` step 8. -/
structure Session where
  anp_request : Dict
  timestamp : String
  did : String

/-- The mutable state of `AnpMcpBridge`: the DID→OAuth registry and the
session store. -/
structure Bridge where
  did_oauth_map : List (String × String)
  session_map : List (String × Session)

/-- Model of `AnpMcpBridge.register_did`. -/
def register_did (b : Bridge) (did oauth_token : String) : Bool × Bridge :=
  (true, { b with did_oauth_map := dinsert b.did_oauth_map did oauth_token })

/-- Model of `AnpMcpBridge.get_session_info`. -/
def get_session_info (b : Bridge) (request_id : String) : Option Session :=
  dget b.session_map request_id

/-- Model of `AnpMcpBridge.clear_session`. -/
def clear_session (b : Bridge) (request_id : String) : Bool × Bridge :=
  if (dget b.session_map request_id).isSome then
    (true, { b with session_map := derase b.session_map request_id })
  else
    (false, b)

/-- Model of `AnpMcpBridge._validate_anp_request`: both `did` and `intent` present. -/
def validate_anp_request (request : Dict) : Bool :=
  dcontains request "did" && dcontains request "intent"

/-- Model of `AnpMcpBridge._validate_mcp_response`: `jsonrpc` and `id` present, and
at least one of `result` / `error` present. -/
def validate_mcp_response (response : Dict) : Bool :=
  (dcontains response "jsonrpc" && dcontains response "id") &&
    (dcontains response "result" || dcontains response "error")

/-- The JSON-RPC-like envelope built by `anp_to_mcp` step 7. -/
structure McpRequest where
  jsonrpc : String
  method : String
  params : Dict
  id : String
  oauth_token : String

/-- The discriminated result of `anp_to_mcp`: the success dict
`{success, mcp_request, request_id}` or the failure dict
`{success, error, error_code}`. -/
inductive AnpResult where
  | success : McpRequest → String → AnpResult
  | failure : (error : String) → (error_code : String) → AnpResult

/-- Model of `did in self.did_oauth_map` followed by `self.did_oauth_map[did]`:
only a string can equal a string key; hashing a list or dict raises
`TypeError`. Returns the did string and its token on a hit. -/
def lookupDid (reg : List (String × String)) : Json → Except String (Option (String × String))
  | .str s => .ok ((dget reg s).map (fun tok => (s, tok)))
  | .arr _ => .error "unhashable type: 'list'"
  | .obj _ => .error "unhashable type: 'dict'"
  | _ => .ok none

/-- The `parameters` field: defaults to `{}` when absent; a present
non-dict value raises `AttributeError` at `params.items()`. -/
def getParams (request : Dict) : Except String Dict :=
  match dget request "parameters" with
  | none => .ok []
  | some (.obj fs) => .ok fs
  | some (.null) => .error "'NoneType' object has no attribute 'items'"
  | some (.bool _) => .error "'bool' object has no attribute 'items'"
  | some (.num _) => .error "'int' object has no attribute 'items'"
  | some (.str _) => .error "'str' object has no attribute 'items'"
  | some (.arr _) => .error "'list' object has no attribute 'items'"

/-- The session dict written by `anp_to_mcp` step 8. -/
def sessionEntry (req : Dict) (now did : String) : Session :=
  { anp_request := req, timestamp := now, did := did }

/-- Body of the `try` block of `AnpMcpBridge.anp_to_mcp`; an
`Except.error` models a raised exception. `request_id` stands for the
freshly generated `req-{uuid4.hex[:8]}` and `now` for the timestamp. -/
def anp_to_mcp_inner (b : Bridge) (anp_request : Dict) (request_id now : String) :
    Except String (AnpResult × Bridge) :=
  if !validate_anp_request anp_request then
    .ok (.failure "无效的ANP请求格式" "INVALID_ANP_FORMAT", b)
  else
    let didv := (dget anp_request "did").getD .null
    if didv.falsy then
      .ok (.failure "无效的DID" "INVALID_DID", b)
    else
      match lookupDid b.did_oauth_map didv with
      | .error e => .error e
      | .ok none => .ok (.failure "无效的DID" "INVALID_DID", b)
      | .ok (some (did, oauth_token)) =>
        let intentv := (dget anp_request "intent").getD .null
        match convert_intent_to_method intentv with
        | .error e => .error e
        | .ok method =>
          match getParams anp_request with
          | .error e => .error e
          | .ok rawParams =>
            let params := convert_anp_params_to_mcp rawParams
            let mcp_request : McpRequest :=
              { jsonrpc := "2.0", method := method, params := params,
                id := request_id, oauth_token := oauth_token }
            let b' : Bridge :=
              { b with session_map := dinsert b.session_map request_id (sessionEntry anp_request now did) }
            .ok (.success mcp_request request_id, b')

/-- Model of `AnpMcpBridge.anp_to_mcp`: the `try`/`except` wrapper turning any
raised exception into a `CONVERSION_ERROR` failure result. -/
def anp_to_mcp (b : Bridge) (anp_request : Dict) (request_id now : String) :
    AnpResult × Bridge :=
  match anp_to_mcp_inner b anp_request request_id now with
  | .ok r => r
  | .error e => (.failure ("转换失败: " ++ e) "CONVERSION_ERROR", b)

/-- The `context` dict of a successful ANP response. -/
structure AnpContext where
  intent : Json
  request_id : Json
  did : String

/-- The `context` dict attached to an upstream-error ANP response. -/
structure ErrorContext where
  request_id : Json
  original_intent : Json

/-- The discriminated result of `mcp_to_anp`: the success dict
`{success, data, context}` or a failure dict `{success, error,
error_code}`, the upstream-error variant also carrying a `context`. -/
inductive McpResult where
  | ok : (data : Json) → AnpContext → McpResult
  | err : (error : Json) → (error_code : Json) → Option ErrorContext → McpResult

/-- Model of `self.session_map.get(request_id)`: session keys are strings, so only
a string id can hit; hashing a list or dict raises `TypeError`. -/
def sessionGet (m : List (String × Session)) : Json → Except String (Option Session)
  | .str s => .ok (dget m s)
  | .arr _ => .error "unhashable type: 'list'"
  | .obj _ => .error "unhashable type: 'dict'"
  | _ => .ok none

/-- Model of `mcp_response["error"].get(...)`: only a dict has `.get`; any other
value for the `error` field raises `AttributeError`. -/
def getErrorDict : Json → Except String Dict
  | .obj fs => .ok fs
  | .null => .error "'NoneType' object has no attribute 'get'"
  | .bool _ => .error "'bool' object has no attribute 'get'"
  | .num _ => .error "'int' object has no attribute 'get'"
  | .str _ => .error "'str' object has no attribute 'get'"
  | .arr _ => .error "'list' object has no attribute 'get'"

/-- Body of the `try` block of `AnpMcpBridge.mcp_to_anp`. -/
def mcp_to_anp_inner (b : Bridge) (mcp_response : Dict) : Except String McpResult :=
  if !validate_mcp_response mcp_response then
    .ok (.err (.str "无效的MCP响应格式") (.str "INVALID_MCP_FORMAT") none)
  else
    let request_id := (dget mcp_response "id").getD .null
    match sessionGet b.session_map request_id with
    | .error e => .error e
    | .ok none => .ok (.err (.str "未找到对应的会话信息") (.str "SESSION_NOT_FOUND") none)
    | .ok (some session_info) =>
      match dget mcp_response "error" with
      | some errv =>
        match getErrorDict errv with
        | .error e => .error e
        | .ok err =>
          .ok (.err ((dget err "message").getD (.str "未知错误"))
                    ((dget err "code").getD (.str "UNKNOWN_ERROR"))
                    (some { request_id := request_id,
                            original_intent :=
                              (dget session_info.anp_request "intent").getD .null }))
      | none =>
        let result := (dget mcp_response "result").getD (.obj [])
        .ok (.ok (convert_mcp_result_to_anp result)
                 { intent := (dget session_info.anp_request "intent").getD .null,
                   request_id := request_id,
                   did := session_info.did })

/-- Model of `AnpMcpBridge.mcp_to_anp`: the `try`/`except` wrapper; the method
never writes to the bridge state, so the state comes back unchanged on
every path. -/
def mcp_to_anp (b : Bridge) (mcp_response : Dict) : McpResult × Bridge :=
  match mcp_to_anp_inner b mcp_response with
  | .ok r => (r, b)
  | .error e => (.err (.str ("转换失败: " ++ e)) (.str "CONVERSION_ERROR") none, b)

/-! ## Dictionary lemmas -/

theorem dget_dinsert_self {α : Type} (d : List (String × α)) (k : String) (v : α) :
    dget (dinsert d k v) k = some v := by
  simp [dinsert, dget]

theorem dget_derase_self {α : Type} (d : List (String × α)) (k : String) :
    dget (derase d k) k = none := by
  induction d with
  | nil => rfl
  | cons kv rest ih =>
    obtain ⟨k', v⟩ := kv
    by_cases h : k = k'
    · subst h
      simpa [derase] using ih
    · simp [derase, dget, h, ih]

/-! ## C1: the fallback intent→method rule

The claim asserts that for subsequent tokens only the first character is
upper-cased and the rest is left exactly as-is. The code uses Python's
`str.capitalize()`, which also lower-cases the remainder, so the claim
fails on `"intent fOO"`. -/

/-- The fallback rule exactly as the claim words it: first token
lower-cased, each subsequent token with only its first character
upper-cased and the rest of the token left exactly as-is, concatenated
with no separator; `"query"` for an empty token list. -/
def claimFallbackRule (intent : String) : String :=
  match pySplit intent with
  | [] => "query"
  | w :: rest =>
    pyLower w ++ String.join (rest.map (fun t =>
      match t.data with
      | [] => ""
      | c :: cs => String.mk (c.toUpper :: cs)))

/-- The fallback rule as amended: first token lower-cased, each
subsequent token with its first character upper-cased and the remainder
lower-cased, concatenated with no separator; `"query"` for an empty
token list. -/
def amendedFallbackRule (intent : String) : String :=
  match pySplit intent with
  | [] => "query"
  | w :: rest =>
    pyLower w ++ String.join (rest.map (fun t =>
      match t.data with
      | [] => ""
      | c :: cs => String.mk (c.toUpper :: cs.map Char.toLower)))

/-- C1 counterexample: the unmapped intent "intent fOO" is converted by
the code to "intentFoo" (the remainder of "fOO" is lower-cased by
Python's capitalize), while the claim's as-is rule would give
"intentFOO". -/
theorem C1_fallback_counterexample :
    dget intent_method_map "intent fOO" = none ∧
    convert_intent_to_method (Json.str "intent fOO") = Except.ok "intentFoo" ∧
    claimFallbackRule "intent fOO" = "intentFOO" ∧
    (("intentFoo" : String) == "intentFOO") = false :=
  ⟨rfl, rfl, rfl, by decide⟩

/-- C1 (amended): for every intent string not present in the static
intent→method table, the conversion applies the fallback rule: split on
whitespace; if the token list is empty return "query"; otherwise
concatenate the first token lower-cased with each subsequent token
capitalized (first character upper-cased, remainder lower-cased); in
particular "intent foo" maps to "intentFoo". -/
theorem C1_fallback_amended (intent : String)
    (h : dget intent_method_map intent = none) :
    convert_intent_to_method (Json.str intent) = Except.ok (amendedFallbackRule intent) := by
  have hconv : convert_intent_to_method (Json.str intent) =
      Except.ok ((dget intent_method_map intent).getD (default_method_conversion intent)) := rfl
  rw [hconv, h]
  rfl

/-- C1 witness: the amended fallback rule applied to the concrete
unmapped intent "intent foo" yields "intentFoo". -/
theorem C1_fallback_amended_witness :
    dget intent_method_map "intent foo" = none ∧
    convert_intent_to_method (Json.str "intent foo") = Except.ok "intentFoo" := by
  refine ⟨rfl, ?_⟩
  rw [C1_fallback_amended "intent foo" rfl]
  rfl

/-! ## C3 and C4: the ANP→MCP translation paths -/

/-- The `parameters` field of an ANP request as a dict, defaulting to the
empty mapping when absent (and when not a dict, though on that case the
translation raises instead of reaching the params step). -/
def paramsField (req : Dict) : Dict :=
  match dget req "parameters" with
  | some (.obj p) => p
  | _ => []

/-- C3: for every ANP request carrying a registered, non-empty did and a
string intent (and parameters either absent or a mapping), `anp_to_mcp`
succeeds with the envelope made of exactly the protocol marker "2.0"
under `jsonrpc`, the method resolved from the intent, the translated
parameters (empty mapping when absent), the fresh correlation id as
`id`, and the credential registered for the did as `oauth_token`; the
success result carries the correlation id alongside the envelope, and
the session entry for the request is stored. -/
theorem C3_success_envelope (b : Bridge) (req : Dict) (rid now s tok i : String)
    (hdid : dget req "did" = some (Json.str s)) (hs : s ≠ "")
    (hreg : dget b.did_oauth_map s = some tok)
    (hint : dget req "intent" = some (Json.str i))
    (hpar : dget req "parameters" = none ∨ ∃ p, dget req "parameters" = some (Json.obj p)) :
    anp_to_mcp b req rid now =
      (AnpResult.success
        ({ jsonrpc := "2.0", method := intentToMethodStr i,
           params := convert_anp_params_to_mcp (paramsField req),
           id := rid, oauth_token := tok }) rid,
       { b with session_map := dinsert b.session_map rid (sessionEntry req now s) }) := by
  rcases hpar with hp | ⟨p, hp⟩ <;>
    simp [anp_to_mcp, anp_to_mcp_inner, validate_anp_request, dcontains,
      hdid, hint, hreg, hp, Json.falsy, hs, lookupDid, convert_intent_to_method,
      getParams, paramsField]

/-- C3 witness: a concrete registered did and mapped intent produce the
expected envelope. -/
theorem C3_success_envelope_witness :
    anp_to_mcp ({ did_oauth_map := [("test_did_123", "test_oauth_456")], session_map := [] })
        [("did", Json.str "test_did_123"), ("intent", Json.str "查询天气")] "req-1" "t0" =
      (AnpResult.success
        ({ jsonrpc := "2.0", method := "getWeather", params := [],
           id := "req-1", oauth_token := "test_oauth_456" }) "req-1",
       { did_oauth_map := [("test_did_123", "test_oauth_456")],
         session_map :=
           [("req-1",
             sessionEntry [("did", Json.str "test_did_123"), ("intent", Json.str "查询天气")]
               "t0" "test_did_123")] }) := by
  have h := C3_success_envelope
    ({ did_oauth_map := [("test_did_123", "test_oauth_456")], session_map := [] })
    [("did", Json.str "test_did_123"), ("intent", Json.str "查询天气")]
    "req-1" "t0" "test_did_123" "test_oauth_456" "查询天气" rfl (by decide) rfl rfl (Or.inl rfl)
  rw [h]
  rfl

/-- C4: whenever the ANP request mapping lacks the key `did` or the key
`intent`, `anp_to_mcp` fails with `INVALID_ANP_FORMAT` and the bridge
state (in particular the session store) is returned unchanged. -/
theorem C4_invalid_anp_format (b : Bridge) (req : Dict) (rid now : String)
    (h : dget req "did" = none ∨ dget req "intent" = none) :
    anp_to_mcp b req rid now =
      (AnpResult.failure "无效的ANP请求格式" "INVALID_ANP_FORMAT", b) := by
  have hval : validate_anp_request req = false := by
    rcases h with h | h <;> simp [validate_anp_request, dcontains, h]
  simp [anp_to_mcp, anp_to_mcp_inner, hval]

/-- C4 witness: a request with only an intent is rejected as
`INVALID_ANP_FORMAT` and leaves the bridge untouched. -/
theorem C4_invalid_anp_format_witness :
    anp_to_mcp ({ did_oauth_map := [], session_map := [] })
        [("intent", Json.str "查询天气")] "req-1" "t0" =
      (AnpResult.failure "无效的ANP请求格式" "INVALID_ANP_FORMAT",
       { did_oauth_map := [], session_map := [] }) :=
  C4_invalid_anp_format _ _ _ _ (Or.inl rfl)

/-! ## C5: DID validation

The code's check is `if not did or did not in self.did_oauth_map`: only
the EMPTY string is falsy, so a registered whitespace-only did passes
validation, contrary to the claim's "blank treated identically to
unregistered even if registered". -/

/-- The error code of an ANP→MCP translation result, `none` on success. -/
def AnpResult.errorCode : AnpResult → Option String
  | .success _ _ => none
  | .failure _ code => some code

/-- C5 counterexample: the whitespace-only did " " IS accepted once
registered — the translation succeeds and carries no error code, while
the claim demands an INVALID_DID failure. -/
theorem C5_blank_did_counterexample :
    (anp_to_mcp ({ did_oauth_map := [(" ", "tok1")], session_map := [] })
        [("did", Json.str " "), ("intent", Json.str "hello")] "req-1" "t0").1 =
      AnpResult.success
        ({ jsonrpc := "2.0", method := "hello", params := [],
           id := "req-1", oauth_token := "tok1" }) "req-1" ∧
    AnpResult.errorCode
      (anp_to_mcp ({ did_oauth_map := [(" ", "tok1")], session_map := [] })
        [("did", Json.str " "), ("intent", Json.str "hello")] "req-1" "t0").1 = none :=
  ⟨rfl, rfl⟩

/-- C5 (amended): for every ANP request containing did and intent whose
did string is either the empty string (even if the empty string was
registered) or not registered in the identity registry, `anp_to_mcp`
fails with `INVALID_DID`; whitespace-only dids are not treated
specially — a registered non-empty did passes this check. -/
theorem C5_invalid_did_amended (b : Bridge) (req : Dict) (rid now s : String) (iv : Json)
    (hdid : dget req "did" = some (Json.str s))
    (hint : dget req "intent" = some iv)
    (h : s = "" ∨ dget b.did_oauth_map s = none) :
    anp_to_mcp b req rid now = (AnpResult.failure "无效的DID" "INVALID_DID", b) := by
  rcases h with h | h
  · subst h
    simp [anp_to_mcp, anp_to_mcp_inner, validate_anp_request, dcontains, hdid, hint, Json.falsy]
  · by_cases hs : s = ""
    · subst hs
      simp [anp_to_mcp, anp_to_mcp_inner, validate_anp_request, dcontains, hdid, hint, Json.falsy]
    · simp [anp_to_mcp, anp_to_mcp_inner, validate_anp_request, dcontains, hdid, hint,
        Json.falsy, hs, lookupDid, h]

/-- C5 witness: the empty did is rejected as INVALID_DID even though the
empty string is registered, and an unregistered did is rejected too. -/
theorem C5_invalid_did_amended_witness :
    anp_to_mcp ({ did_oauth_map := [("", "tok1")], session_map := [] })
        [("did", Json.str ""), ("intent", Json.str "hello")] "req-1" "t0" =
      (AnpResult.failure "无效的DID" "INVALID_DID",
       { did_oauth_map := [("", "tok1")], session_map := [] }) :=
  C5_invalid_did_amended _ _ _ _ "" (Json.str "hello") rfl rfl (Or.inl rfl)

/-! ## C6: MCP response validation -/

/-- Validation `_validate_mcp_response` fails exactly when `jsonrpc` is missing, or
`id` is missing, or neither `result` nor `error` is present. -/
theorem validate_mcp_false_iff (resp : Dict) :
    validate_mcp_response resp = false ↔
      (dget resp "jsonrpc" = none ∨ dget resp "id" = none ∨
        (dget resp "result" = none ∧ dget resp "error" = none)) := by
  cases hj : dget resp "jsonrpc" <;> cases hi : dget resp "id" <;>
    cases hr : dget resp "result" <;> cases he : dget resp "error" <;>
      simp [validate_mcp_response, dcontains, hj, hi, hr, he]

/-- Once validation passes, no later branch of `mcp_to_anp` produces the
engine's INVALID_MCP_FORMAT failure: the session miss, upstream-error,
success and exception branches all differ from it. -/
theorem mcp_to_anp_valid_not_format (b : Bridge) (resp : Dict)
    (h : validate_mcp_response resp = true)
    (hcontra : (mcp_to_anp b resp).1 =
      McpResult.err (Json.str "无效的MCP响应格式") (Json.str "INVALID_MCP_FORMAT") none) :
    False := by
  cases hs : sessionGet b.session_map ((dget resp "id").getD Json.null) with
  | error e =>
    simp [mcp_to_anp, mcp_to_anp_inner, h, hs] at hcontra
  | ok o =>
    cases o with
    | none => simp [mcp_to_anp, mcp_to_anp_inner, h, hs] at hcontra
    | some sess =>
      cases he : dget resp "error" with
      | none => simp [mcp_to_anp, mcp_to_anp_inner, h, hs, he] at hcontra
      | some errv =>
        cases hg : getErrorDict errv with
        | error e => simp [mcp_to_anp, mcp_to_anp_inner, h, hs, he, hg] at hcontra
        | ok errd => simp [mcp_to_anp, mcp_to_anp_inner, h, hs, he, hg] at hcontra

/-- C6: `mcp_to_anp` yields the INVALID_MCP_FORMAT failure exactly when
the response mapping is missing `jsonrpc`, or missing `id`, or contains
neither `result` nor `error`; any response with all required keys and at
least one of result/error passes this validation. -/
theorem C6_invalid_mcp_format_iff (b : Bridge) (resp : Dict) :
    (mcp_to_anp b resp).1 =
      McpResult.err (Json.str "无效的MCP响应格式") (Json.str "INVALID_MCP_FORMAT") none ↔
      (dget resp "jsonrpc" = none ∨ dget resp "id" = none ∨
        (dget resp "result" = none ∧ dget resp "error" = none)) := by
  constructor
  · intro h
    rcases hv : validate_mcp_response resp with _ | _
    · exact (validate_mcp_false_iff resp).mp hv
    · exact absurd h (fun hc => mcp_to_anp_valid_not_format b resp hv hc)
  · intro h
    have hv : validate_mcp_response resp = false := (validate_mcp_false_iff resp).mpr h
    simp [mcp_to_anp, mcp_to_anp_inner, hv]

/-! ## C7: upstream MCP errors surfaced verbatim -/

/-- C7: for a well-formed MCP response whose id has a stored session and
which carries a structured `error` field, `mcp_to_anp` returns a failure
whose error message and code are the upstream values verbatim, with
context holding the correlation id and the original intent recovered
from the session entry; the bridge state — in particular the session
entry — is returned untouched. -/
theorem C7_upstream_error (b : Bridge) (resp : Dict) (jv : Json) (rid : String)
    (sess : Session) (e : Dict) (m c : Json)
    (hj : dget resp "jsonrpc" = some jv)
    (hid : dget resp "id" = some (Json.str rid))
    (hsess : dget b.session_map rid = some sess)
    (herr : dget resp "error" = some (Json.obj e))
    (hm : dget e "message" = some m)
    (hc : dget e "code" = some c) :
    mcp_to_anp b resp =
      (McpResult.err m c
        (some ⟨Json.str rid, (dget sess.anp_request "intent").getD Json.null⟩), b) ∧
    get_session_info (mcp_to_anp b resp).2 rid = some sess := by
  have hmain : mcp_to_anp b resp =
      (McpResult.err m c
        (some ⟨Json.str rid, (dget sess.anp_request "intent").getD Json.null⟩), b) := by
    simp [mcp_to_anp, mcp_to_anp_inner, validate_mcp_response, dcontains, hj, hid,
      sessionGet, hsess, herr, getErrorDict, hm, hc]
  exact ⟨hmain, by rw [hmain]; exact hsess⟩

/-- C7 witness: a concrete stored session and upstream error are surfaced
verbatim with the session left in place. -/
theorem C7_upstream_error_witness :
    mcp_to_anp
        ({ did_oauth_map := [],
           session_map := [("req-7", sessionEntry [("did", Json.str "d7"), ("intent", Json.str "查询订单")] "t7" "d7")] })
        [("jsonrpc", Json.str "2.0"), ("id", Json.str "req-7"),
         ("error", Json.obj [("message", Json.str "boom"), ("code", Json.num 500)])] =
      (McpResult.err (Json.str "boom") (Json.num 500)
        (some ⟨Json.str "req-7", Json.str "查询订单"⟩),
       { did_oauth_map := [],
         session_map := [("req-7", sessionEntry [("did", Json.str "d7"), ("intent", Json.str "查询订单")] "t7" "d7")] }) := by
  have h := C7_upstream_error
    ({ did_oauth_map := [],
       session_map := [("req-7", sessionEntry [("did", Json.str "d7"), ("intent", Json.str "查询订单")] "t7" "d7")] })
    [("jsonrpc", Json.str "2.0"), ("id", Json.str "req-7"),
     ("error", Json.obj [("message", Json.str "boom"), ("code", Json.num 500)])]
    (Json.str "2.0") "req-7"
    (sessionEntry [("did", Json.str "d7"), ("intent", Json.str "查询订单")] "t7" "d7")
    [("message", Json.str "boom"), ("code", Json.num 500)]
    (Json.str "boom") (Json.num 500) rfl rfl rfl rfl rfl rfl
  rw [h.1]
  rfl

/-! ## C8: clearing sessions and SESSION_NOT_FOUND -/

/-- C8: `clear_session` returns true exactly when an entry with that id
was present, and removes it: a subsequent `get_session_info` on that id
finds nothing; and for any id with no stored session — never created or
just cleared — a well-formed response under that id is answered with the
SESSION_NOT_FOUND failure. -/
theorem C8_clear_and_session_not_found :
    (∀ b rid, (clear_session b rid).1 = dcontains b.session_map rid) ∧
    (∀ b rid, get_session_info (clear_session b rid).2 rid = none) ∧
    (∀ b resp rid jv, dget b.session_map rid = none →
      dget resp "jsonrpc" = some jv → dget resp "id" = some (Json.str rid) →
      (dcontains resp "result" || dcontains resp "error") = true →
      (mcp_to_anp b resp).1 =
        McpResult.err (Json.str "未找到对应的会话信息") (Json.str "SESSION_NOT_FOUND") none) := by
  refine ⟨?_, ?_, ?_⟩
  · intro b rid
    simp only [clear_session, dcontains]
    split <;> simp_all
  · intro b rid
    simp only [clear_session]
    split
    · simp [get_session_info, dget_derase_self]
    · rename_i h
      simp only [get_session_info]
      cases hd : dget b.session_map rid with
      | none => rfl
      | some x => simp [hd] at h
  · intro b resp rid jv hnone hj hid hre
    simp only [dcontains] at hre
    simp [mcp_to_anp, mcp_to_anp_inner, validate_mcp_response, dcontains, hj, hid, hre,
      sessionGet, hnone]

/-- C8 witness: clearing a stored session reports it was present and a
lookup afterwards misses; translating a well-formed response against an
empty session store reports SESSION_NOT_FOUND. -/
theorem C8_clear_and_session_not_found_witness :
    (clear_session ({ did_oauth_map := [], session_map := [("req-8", sessionEntry [] "t8" "d8")] }) "req-8").1 =
      dcontains [("req-8", sessionEntry [] "t8" "d8")] "req-8" ∧
    get_session_info
      (clear_session ({ did_oauth_map := [], session_map := [("req-8", sessionEntry [] "t8" "d8")] }) "req-8").2 "req-8" = none ∧
    (mcp_to_anp ({ did_oauth_map := [], session_map := [] })
        [("jsonrpc", Json.str "2.0"), ("id", Json.str "req-8"), ("result", Json.null)]).1 =
      McpResult.err (Json.str "未找到对应的会话信息") (Json.str "SESSION_NOT_FOUND") none :=
  ⟨C8_clear_and_session_not_found.1 _ "req-8",
   C8_clear_and_session_not_found.2.1 _ "req-8",
   C8_clear_and_session_not_found.2.2 _ _ "req-8" (Json.str "2.0") rfl rfl rfl rfl⟩

/-! ## C9 and C10: crash-freedom and failure atomicity -/

/-- Shape classification of `anp_to_mcp`: it either succeeds (returning
the fresh correlation id), or fails with one of the engine's three error
codes; on every failure path the bridge state comes back unchanged. -/
theorem anp_to_mcp_shape (b : Bridge) (req : Dict) (rid now : String) :
    (∃ m b2, anp_to_mcp b req rid now = (AnpResult.success m rid, b2)) ∨
    anp_to_mcp b req rid now = (AnpResult.failure "无效的ANP请求格式" "INVALID_ANP_FORMAT", b) ∨
    anp_to_mcp b req rid now = (AnpResult.failure "无效的DID" "INVALID_DID", b) ∨
    (∃ e, anp_to_mcp b req rid now = (AnpResult.failure ("转换失败: " ++ e) "CONVERSION_ERROR", b)) := by
  by_cases hval : validate_anp_request req
  · by_cases hf : ((dget req "did").getD Json.null).falsy
    · exact Or.inr (Or.inr (Or.inl (by simp [anp_to_mcp, anp_to_mcp_inner, hval, hf])))
    · cases hl : lookupDid b.did_oauth_map ((dget req "did").getD Json.null) with
      | error e =>
        exact Or.inr (Or.inr (Or.inr ⟨e, by simp [anp_to_mcp, anp_to_mcp_inner, hval, hf, hl]⟩))
      | ok o =>
        cases o with
        | none =>
          exact Or.inr (Or.inr (Or.inl (by simp [anp_to_mcp, anp_to_mcp_inner, hval, hf, hl])))
        | some st =>
          obtain ⟨s, tok⟩ := st
          cases hm : convert_intent_to_method ((dget req "intent").getD Json.null) with
          | error e =>
            exact Or.inr (Or.inr (Or.inr ⟨e, by simp [anp_to_mcp, anp_to_mcp_inner, hval, hf, hl, hm]⟩))
          | ok method =>
            cases hp : getParams req with
            | error e =>
              exact Or.inr (Or.inr (Or.inr ⟨e, by simp [anp_to_mcp, anp_to_mcp_inner, hval, hf, hl, hm, hp]⟩))
            | ok rawParams =>
              refine Or.inl
                ⟨{ jsonrpc := "2.0", method := method,
                   params := convert_anp_params_to_mcp rawParams,
                   id := rid, oauth_token := tok },
                 { b with session_map := dinsert b.session_map rid (sessionEntry req now s) },
                 ?_⟩
              simp [anp_to_mcp, anp_to_mcp_inner, hval, hf, hl, hm, hp]
  · exact Or.inr (Or.inl (by
      simp only [Bool.not_eq_true] at hval
      simp [anp_to_mcp, anp_to_mcp_inner, hval]))

/-- C9: both translation operations always return a discriminated
success/failure value — success or a failure carrying one of the
engine's error codes — and every exception raised inside the `try` body
is caught and reported as a CONVERSION_ERROR failure carrying the
underlying cause text, never propagated. -/
theorem C9_no_crash_conversion_error :
    (∀ b req rid now,
      (∃ m i, (anp_to_mcp b req rid now).1 = AnpResult.success m i) ∨
      (∃ msg code, (anp_to_mcp b req rid now).1 = AnpResult.failure msg code ∧
        (code = "INVALID_ANP_FORMAT" ∨ code = "INVALID_DID" ∨ code = "CONVERSION_ERROR"))) ∧
    (∀ b req rid now e, anp_to_mcp_inner b req rid now = Except.error e →
      anp_to_mcp b req rid now =
        (AnpResult.failure ("转换失败: " ++ e) "CONVERSION_ERROR", b)) ∧
    (∀ b resp,
      (∃ d c, (mcp_to_anp b resp).1 = McpResult.ok d c) ∨
      (∃ msg code ctx, (mcp_to_anp b resp).1 = McpResult.err msg code ctx)) ∧
    (∀ b resp e, mcp_to_anp_inner b resp = Except.error e →
      mcp_to_anp b resp =
        (McpResult.err (Json.str ("转换失败: " ++ e)) (Json.str "CONVERSION_ERROR") none, b)) := by
  refine ⟨?_, ?_, ?_, ?_⟩
  · intro b req rid now
    rcases anp_to_mcp_shape b req rid now with ⟨m, b2, hs⟩ | hs | hs | ⟨e, hs⟩
    · exact Or.inl ⟨m, rid, by rw [hs]⟩
    · exact Or.inr ⟨_, _, by rw [hs], Or.inl rfl⟩
    · exact Or.inr ⟨_, _, by rw [hs], Or.inr (Or.inl rfl)⟩
    · exact Or.inr ⟨_, _, by rw [hs], Or.inr (Or.inr rfl)⟩
  · intro b req rid now e h
    simp [anp_to_mcp, h]
  · intro b resp
    cases hr : mcp_to_anp_inner b resp with
    | error e =>
      exact Or.inr ⟨Json.str ("转换失败: " ++ e), Json.str "CONVERSION_ERROR", none,
        by simp [mcp_to_anp, hr]⟩
    | ok r =>
      cases r with
      | ok d c => exact Or.inl ⟨d, c, by simp [mcp_to_anp, hr]⟩
      | err m c ctx => exact Or.inr ⟨m, c, ctx, by simp [mcp_to_anp, hr]⟩
  · intro b resp e h
    simp [mcp_to_anp, h]

/-- C9 witness: a non-string intent makes the ANP→MCP body raise and the
wrapper reports CONVERSION_ERROR with the cause; an unhashable response
id does the same for MCP→ANP. -/
theorem C9_no_crash_conversion_error_witness :
    anp_to_mcp ({ did_oauth_map := [("d9", "t9")], session_map := [] })
        [("did", Json.str "d9"), ("intent", Json.num 5)] "req-9" "t0" =
      (AnpResult.failure ("转换失败: " ++ "'int' object has no attribute 'split'") "CONVERSION_ERROR",
       { did_oauth_map := [("d9", "t9")], session_map := [] }) ∧
    mcp_to_anp ({ did_oauth_map := [], session_map := [] })
        [("jsonrpc", Json.str "2.0"), ("id", Json.arr []), ("result", Json.null)] =
      (McpResult.err (Json.str ("转换失败: " ++ "unhashable type: 'list'"))
        (Json.str "CONVERSION_ERROR") none,
       { did_oauth_map := [], session_map := [] }) :=
  ⟨C9_no_crash_conversion_error.2.1 _ _ _ _ _ rfl,
   C9_no_crash_conversion_error.2.2.2 _ _ _ rfl⟩

/-- C10: whenever `anp_to_mcp` returns a failure result — whatever the
error code — the bridge state (session store and identity registry
together) is returned exactly as it was: the session entry is written
only as the final step of the success path. -/
theorem C10_failure_leaves_state (b : Bridge) (req : Dict) (rid now msg code : String)
    (h : (anp_to_mcp b req rid now).1 = AnpResult.failure msg code) :
    (anp_to_mcp b req rid now).2 = b := by
  rcases anp_to_mcp_shape b req rid now with ⟨m, b2, hs⟩ | hs | hs | ⟨e, hs⟩
  · rw [hs] at h
    simp at h
  · rw [hs]
  · rw [hs]
  · rw [hs]

/-- C10 witness: a rejected request (missing fields) leaves the bridge
exactly as it was. -/
theorem C10_failure_leaves_state_witness :
    (anp_to_mcp ({ did_oauth_map := [("d10", "t10")], session_map := [] }) [] "r" "t").2 =
      ({ did_oauth_map := [("d10", "t10")], session_map := [] } : Bridge) :=
  C10_failure_leaves_state _ _ _ _ "无效的ANP请求格式" "INVALID_ANP_FORMAT" rfl

/-! ## C2: the round trip ANP→MCP→ANP -/

/-- C2: for every ANP request on which `anp_to_mcp` succeeds, feeding a
well-formed MCP success response — `jsonrpc` present, a `result` field,
no `error` field, and the returned correlation id as `id` — into
`mcp_to_anp` yields a success whose data is the response's result passed
through unchanged and whose context carries the original request's
intent, the correlation id, and the did recovered from the session
entry. -/
theorem C2_round_trip (b b' : Bridge) (req resp : Dict) (rid now s r : String)
    (mcp : McpRequest) (jv data : Json)
    (hdid : dget req "did" = some (Json.str s))
    (hsucc : anp_to_mcp b req rid now = (AnpResult.success mcp r, b'))
    (hj : dget resp "jsonrpc" = some jv)
    (hid : dget resp "id" = some (Json.str r))
    (hres : dget resp "result" = some data)
    (herr : dget resp "error" = none) :
    mcp_to_anp b' resp =
      (McpResult.ok data ⟨(dget req "intent").getD Json.null, Json.str r, s⟩, b') := by
  have hdv : (dget req "did").getD Json.null = Json.str s := by rw [hdid]; rfl
  by_cases hval : validate_anp_request req
  case neg =>
    simp only [Bool.not_eq_true] at hval
    simp [anp_to_mcp, anp_to_mcp_inner, hval] at hsucc
  case pos =>
    cases hfs : (Json.str s).falsy with
    | true => simp [anp_to_mcp, anp_to_mcp_inner, hval, hdv, hfs] at hsucc
    | false =>
      cases hreg : dget b.did_oauth_map s with
      | none =>
        simp [anp_to_mcp, anp_to_mcp_inner, hval, hdv, hfs, lookupDid, hreg] at hsucc
      | some tok =>
        cases hm : convert_intent_to_method ((dget req "intent").getD Json.null) with
        | error e =>
          simp [anp_to_mcp, anp_to_mcp_inner, hval, hdv, hfs, lookupDid, hreg, hm] at hsucc
        | ok method =>
          cases hp : getParams req with
          | error e =>
            simp [anp_to_mcp, anp_to_mcp_inner, hval, hdv, hfs, lookupDid, hreg, hm, hp] at hsucc
          | ok rawParams =>
            simp [anp_to_mcp, anp_to_mcp_inner, hval, hdv, hfs, lookupDid, hreg, hm, hp,
              Prod.mk.injEq, AnpResult.success.injEq] at hsucc
            obtain ⟨⟨hmcp, hr⟩, hb⟩ := hsucc
            subst hr
            subst hb
            simp [mcp_to_anp, mcp_to_anp_inner, validate_mcp_response, dcontains, hj, hid,
              hres, herr, sessionGet, dget_dinsert_self, sessionEntry, convert_mcp_result_to_anp]

/-- C2 witness: a concrete registered did, a mapped intent, and a
well-formed success response round-trip to an ANP success carrying the
original intent, correlation id and did. -/
theorem C2_round_trip_witness :
    mcp_to_anp
        ({ did_oauth_map := [("d2", "t2")],
           session_map :=
             [("req-2", sessionEntry [("did", Json.str "d2"), ("intent", Json.str "查询天气")] "t0" "d2")] })
        [("jsonrpc", Json.str "2.0"), ("result", Json.obj [("temp", Json.num 25)]), ("id", Json.str "req-2")] =
      (McpResult.ok (Json.obj [("temp", Json.num 25)])
        ⟨Json.str "查询天气", Json.str "req-2", "d2"⟩,
       { did_oauth_map := [("d2", "t2")],
         session_map :=
           [("req-2", sessionEntry [("did", Json.str "d2"), ("intent", Json.str "查询天气")] "t0" "d2")] }) :=
  C2_round_trip
    ({ did_oauth_map := [("d2", "t2")], session_map := [] })
    ({ did_oauth_map := [("d2", "t2")],
       session_map :=
         [("req-2", sessionEntry [("did", Json.str "d2"), ("intent", Json.str "查询天气")] "t0" "d2")] })
    [("did", Json.str "d2"), ("intent", Json.str "查询天气")]
    [("jsonrpc", Json.str "2.0"), ("result", Json.obj [("temp", Json.num 25)]), ("id", Json.str "req-2")]
    "req-2" "t0" "d2" "req-2"
    ({ jsonrpc := "2.0", method := "getWeather", params := [], id := "req-2", oauth_token := "t2" })
    (Json.str "2.0") (Json.obj [("temp", Json.num 25)])
    rfl rfl rfl rfl rfl rfl
